import Mathlib

/-!
Verification development for the multi-agent QA system (Agent-S).

The Python source is shallowly embedded as follows:

* Python dicts read only through `.get` with a default are modelled as Lean
  structures whose fields carry that default (an absent key and a key bound to
  the default value are indistinguishable to the source, which only reads these
  dicts through defaulted `.get` / truthiness tests); keys whose absence is
  observable (e.g. `confidence`, `status` on verification dicts, `bounds` on
  UI elements) are modelled as `Option` fields.
* Python strings and their methods (`lower`, `replace`, `strip`, `split`,
  `in`) are modelled by executable functions over `String` / `List Char`
  with Python semantics (`py...` helpers below).
* External collaborators (the Android driver `env.observe`/`env.step`,
  `time.sleep`, the LLM client plus `json.loads` of its response) are
  parameters of the embedded functions; the per-step dispatch, searching,
  arithmetic and control flow are translated from the source.
* Python float literals `0.3` / `0.7` are embedded as the rationals they
  denote in the source text.
-/

/-! ## Python string primitives -/

/-- Python `str.lower()` (the source only lowercases ASCII text). -/
def pyLower (s : String) : String := ⟨s.data.map Char.toLower⟩

/-- Auxiliary for `pyIn`: is `pat` a contiguous subsequence of the character list. -/
def pyInAux (pat : List Char) : List Char → Bool
  | [] => pat.isEmpty
  | l@(_ :: rest) => pat.isPrefixOf l || pyInAux pat rest

/-- Python `pat in s` substring test. -/
def pyIn (pat s : String) : Bool := pyInAux pat.data s.data

/-- Auxiliary for `pyReplace`; the fuel is the length of the scanned list, so it
never runs out for the initial call. -/
def pyReplaceAux (pat rep : List Char) : Nat → List Char → List Char
  | _, [] => []
  | 0, s => s
  | fuel+1, c :: rest =>
    if pat.isPrefixOf (c :: rest) && !pat.isEmpty then
      rep ++ pyReplaceAux pat rep fuel (List.drop (pat.length - 1) rest)
    else c :: pyReplaceAux pat rep fuel rest

/-- Python `s.replace(pat, rep)`: replace all occurrences left to right. -/
def pyReplace (s pat rep : String) : String :=
  ⟨pyReplaceAux pat.data rep.data s.data.length s.data⟩

/-- Python `s.strip()`: drop leading and trailing whitespace. -/
def pyStrip (s : String) : String :=
  ⟨((s.data.dropWhile Char.isWhitespace).reverse.dropWhile Char.isWhitespace).reverse⟩

/-- Auxiliary for `pySplit`, accumulating the current word reversed. -/
def pySplitAux : List Char → List Char → List String
  | [], acc => if acc.isEmpty then [] else [⟨acc.reverse⟩]
  | c :: rest, acc =>
    if c.isWhitespace then
      if acc.isEmpty then pySplitAux rest [] else (⟨acc.reverse⟩ : String) :: pySplitAux rest []
    else pySplitAux rest (c :: acc)

/-- Python `s.split()`: split on whitespace runs, discarding empty words. -/
def pySplit (s : String) : List String := pySplitAux s.data []

/-- Python `sep.join(words)`. -/
def pyJoin (sep : String) : List String → String
  | [] => ""
  | [x] => x
  | x :: y :: rest => x ++ sep ++ pyJoin sep (y :: rest)

/-! ## UI trees

A node of the Android UI hierarchy as the source reads it: the keys `text`,
`content-desc`, `resource-id`, `class`, `bounds`, `clickable`, `scrollable`
and `children`.  `bounds` is `Option`al because two call sites use different
`.get` defaults for it (`[]` in `ExecutorAgent._execute_tap` and
`AndroidHelper.parse_ui_tree`, `[0,0,100,100]` in the second
`ExecutorAgent._get_element_center`). -/

inductive UITree where
  | node (text content_desc resource_id class_name : String)
      (bounds : Option (List Int)) (clickable scrollable : Bool)
      (children : List UITree)

def UITree.text : UITree → String
  | .node t _ _ _ _ _ _ _ => t

def UITree.content_desc : UITree → String
  | .node _ d _ _ _ _ _ _ => d

def UITree.resource_id : UITree → String
  | .node _ _ rid _ _ _ _ _ => rid

def UITree.class_name : UITree → String
  | .node _ _ _ cn _ _ _ _ => cn

def UITree.bounds : UITree → Option (List Int)
  | .node _ _ _ _ b _ _ _ => b

def UITree.clickable : UITree → Bool
  | .node _ _ _ _ _ cl _ _ => cl

def UITree.scrollable : UITree → Bool
  | .node _ _ _ _ _ _ sc _ => sc

def UITree.children : UITree → List UITree
  | .node _ _ _ _ _ _ _ cs => cs

/-- The empty dict `{}` used as the `.get('ui_tree', {})` default in
`ExecutorAgent._execute_tap`. -/
def UITree.emptyDict : UITree := .node "" "" "" "" none false false []

namespace AndroidHelper

/-- One entry of the list built by `AndroidHelper.parse_ui_tree`: the dict
`{'depth': …, 'class': …, 'text': …, 'content_desc': …, 'resource_id': …,
'bounds': …, 'clickable': …, 'scrollable': …}`. -/
structure ParsedElement where
  depth : Nat
  class_name : String
  text : String
  content_desc : String
  resource_id : String
  bounds : List Int
  clickable : Bool
  scrollable : Bool
deriving DecidableEq

/-- The element dict `parse_ui_tree.traverse` builds for one node at a given depth. -/
def to_element (depth : Nat) : UITree → ParsedElement
  | .node t d rid cn b cl sc _ => ⟨depth, cn, t, d, rid, b.getD [], cl, sc⟩

/-- The guard `any([element['text'], element['content_desc'], element['resource_id']])`:
the node carries at least one identifying signal. -/
def has_signal : UITree → Bool
  | .node t d rid _ _ _ _ _ => t != "" || d != "" || rid != ""

mutual

/-- `AndroidHelper.parse_ui_tree.traverse`: returns at `depth > max_depth`,
otherwise appends the node (when it has a signal) and recurses into children
at `depth + 1`. -/
def traverse (max_depth depth : Nat) : UITree → List ParsedElement
  | n@(.node _ _ _ _ _ _ _ cs) =>
    if depth > max_depth then []
    else (if has_signal n then [to_element depth n] else []) ++
      traverse_list max_depth (depth+1) cs

def traverse_list (max_depth depth : Nat) : List UITree → List ParsedElement
  | [] => []
  | c :: cs => traverse max_depth depth c ++ traverse_list max_depth depth cs

end

/-- `AndroidHelper.parse_ui_tree` with its default `max_depth = 10`. -/
def parse_ui_tree (ui_tree : UITree) : List ParsedElement := traverse 10 0 ui_tree

mutual

/-- Depth-first pre-order sequence of a tree's nodes paired with their depths
(the spec's words for the flattening, stated for comparison with `traverse`). -/
def spec_preorder (depth : Nat) : UITree → List (Nat × UITree)
  | n@(.node _ _ _ _ _ _ _ cs) => (depth, n) :: spec_preorder_list (depth+1) cs

def spec_preorder_list (depth : Nat) : List UITree → List (Nat × UITree)
  | [] => []
  | c :: cs => spec_preorder depth c ++ spec_preorder_list depth cs

end

/-- Flattening as the spec describes it: the pre-order sequence, keeping exactly
the elements with an identifying signal. -/
def spec_flatten (t : UITree) : List ParsedElement :=
  ((spec_preorder 0 t).filter (fun p => has_signal p.2)).map (fun p => to_element p.1 p.2)

mutual

/-- Every node of the tree sits at depth at most `max_depth` when the root is at
`depth`. -/
def depth_bounded (max_depth depth : Nat) : UITree → Bool
  | .node _ _ _ _ _ _ _ cs =>
    decide (depth ≤ max_depth) && depth_bounded_list max_depth (depth+1) cs

def depth_bounded_list (max_depth depth : Nat) : List UITree → Bool
  | [] => true
  | c :: cs => depth_bounded max_depth depth c && depth_bounded_list max_depth depth cs

end

/-- A path-shaped tree of `n+1` nodes, every node carrying the text `"x"`
(an identifying signal); the deepest node sits at depth `n`. -/
def deep_chain : Nat → UITree
  | 0 => .node "x" "" "" "" none false false []
  | n+1 => .node "x" "" "" "" none false false [deep_chain n]

end AndroidHelper

/-! ## Verifier -/

namespace VerifierAgent

/-- A per-step verification dict as built by `VerifierAgent`: all keys the
source ever writes or reads on it, each `Option`al since different branches
populate different keys. -/
structure Verification where
  step_num : Option Nat := none
  status : Option String := none
  reason : Option String := none
  confidence : Option ℚ := none
  error : Option String := none
  needs_replanning : Option Bool := none
  current_state : Option UITree := none

instance : Inhabited Verification := ⟨{}⟩

mutual

/-- `VerifierAgent._extract_all_text.extract`: collect `text` then
`content-desc` of each node (when truthy), pre-order. -/
def extract_texts : UITree → List String
  | .node t d _ _ _ _ _ cs =>
    (if t != "" then [t] else []) ++ (if d != "" then [d] else []) ++ extract_texts_list cs

def extract_texts_list : List UITree → List String
  | [] => []
  | c :: cs => extract_texts c ++ extract_texts_list cs

end

/-- `VerifierAgent._extract_all_text`: `' '.join(texts)`. -/
def extract_all_text (ui_tree : UITree) : String := pyJoin " " (extract_texts ui_tree)

/-- The final `return` of `VerifierAgent._heuristic_verification`, reached from
all three control paths that fail to establish a `PASSED` pattern. -/
def could_not_verify : Verification :=
  { status := some "FAILED", reason := some "Could not verify expected outcome",
    confidence := some (0.3 : ℚ) }

/-- `VerifierAgent._heuristic_verification`. -/
def heuristic_verification (expected : String) (ui_tree : UITree) : Verification :=
  let expected_lower := pyLower expected
  let ui_text := pyLower (extract_all_text ui_tree)
  if pyIn "visible" expected_lower || pyIn "open" expected_lower then
    let key_words := pyStrip (pyReplace (pyReplace expected_lower "visible" "") "open" "")
    if (pySplit key_words).any (fun word => pyIn word ui_text) then
      { status := some "PASSED", reason := some "Expected content found" }
    else could_not_verify
  else if pyIn "on" expected_lower || pyIn "off" expected_lower then
    if pyIn "wifi is now on" expected_lower && pyIn "on" ui_text then
      { status := some "PASSED", reason := some "WiFi toggle is ON" }
    else if pyIn "wifi is now off" expected_lower && pyIn "off" ui_text then
      { status := some "PASSED", reason := some "WiFi toggle is OFF" }
    else could_not_verify
  else could_not_verify

/-- `VerifierAgent._needs_replanning`: the loop with two early `return True`
tests per result. -/
def needs_replanning : List Verification → Bool
  | [] => false
  | result :: rest =>
    if result.needs_replanning.getD false then true
    else if result.status = some "FAILED" ∧ result.confidence.getD 0 > (0.7 : ℚ) then true
    else needs_replanning rest

/-- The if/elif/else chain of `VerifierAgent._determine_overall_status` over the
extracted status list. -/
def status_fold (statuses : List String) : String :=
  if statuses.contains "BUG_DETECTED" then "BUG_DETECTED"
  else if statuses.contains "FAILED" then "FAILED"
  else if statuses.all (fun s => s == "PASSED") then "PASSED"
  else "PARTIAL_PASS"

/-- `VerifierAgent._determine_overall_status`, including the
`r.get('status', 'UNKNOWN')` extraction. -/
def determine_overall_status (verification_results : List Verification) : String :=
  status_fold (verification_results.map (fun r => r.status.getD "UNKNOWN"))

end VerifierAgent

/-! ## Executor -/

namespace ExecutorAgent

/-- A plan step dict: the keys the source reads (`action`, `target`,
`verification`, `fallback`, `text`).  `fallback` is `Option`al because the
source distinguishes a missing key (`step.get('fallback')` is `None`). -/
structure Step where
  action : String := ""
  target : String := ""
  verification : String := ""
  fallback : Option String := none
  text : String := ""
deriving DecidableEq, Inhabited

/-- The `details` dict of a step result: one constructor per shape the source
builds (plus the shape returned by the modelled external driver for `type`
steps). -/
inductive Details where
  | err (msg : String)
  | tapped (tapped_at : Int × Int) (element : String)
  | waited (duration : String)
  | scrolled (direction : String) (distance : Int)
  | driver (info : String)
deriving DecidableEq, Inhabited

/-- `details.get('error', 'Unknown error')`: only the `err` shape carries an
`error` key. -/
def Details.get_error : Details → String
  | .err msg => msg
  | _ => "Unknown error"

/-- An observation dict from `env.observe()` as the source reads it
(`pixels`, `ui_tree`, and screen dimensions read with defaults 1920/1080).
The pixel array contents are never inspected, only passed along, so pixels
are an opaque token. -/
structure Observation where
  pixels : Option Nat := none
  ui_tree : Option UITree := none
  screen_height : Int := 1920
  screen_width : Int := 1080

instance : Inhabited Observation := ⟨{}⟩

/-- The external Android driver collaborator: the observation returned by the
`n`-th `env.observe()` call of a run, and the outcome the driver produces for
a `type` step (see `execute_type`).  `env.step` side effects are absorbed into
how `observe` evolves with `n`. -/
structure Driver where
  observe : Nat → Observation
  type_outcome : Nat → Step → Bool × Details

mutual

/-- `ExecutorAgent._find_ui_element.search_tree`: first match in pre-order;
a node matches when the lowered target is a substring of its lowered text,
content description or resource id. -/
def search_tree (target_lower : String) : UITree → Option UITree
  | n@(.node t d rid _ _ _ _ cs) =>
    if pyIn target_lower (pyLower t) || pyIn target_lower (pyLower d) ||
        pyIn target_lower (pyLower rid) then
      some n
    else search_tree_list target_lower cs

def search_tree_list (target_lower : String) : List UITree → Option UITree
  | [] => none
  | c :: cs =>
    match search_tree target_lower c with
    | some result => some result
    | none => search_tree_list target_lower cs

end

/-- `ExecutorAgent._find_ui_element`. -/
def find_ui_element (target : String) (ui_tree : UITree) : Option UITree :=
  search_tree (pyLower target) ui_tree

/-- `ExecutorAgent._execute_tap`: locate the element, require a 4-component
`bounds`, tap at the floor-division midpoint (the `env.step` touch call is an
external effect). -/
def execute_tap (target : String) (observation : Observation) : Bool × Details :=
  let ui_tree := observation.ui_tree.getD UITree.emptyDict
  match find_ui_element target ui_tree with
  | none => (false, .err ("Could not find element: " ++ target))
  | some element =>
    let bounds := element.bounds.getD []
    if bounds.length = 4 then
      let x := (bounds.getD 0 0 + bounds.getD 2 0).fdiv 2
      let y := (bounds.getD 1 0 + bounds.getD 3 0).fdiv 2
      (true, .tapped (x, y) element.text)
    else (false, .err "Invalid element bounds")

/-- `ExecutorAgent._execute_scroll`: always succeeds; the swipe coordinates are
sent to the external driver; the recorded details keep the scrolled distance
`screen_height*3//4 - screen_height//4`. -/
def execute_scroll (_target : String) (observation : Observation) : Bool × Details :=
  let screen_height := observation.screen_height
  let start_y := (screen_height * 3).fdiv 4
  let end_y := screen_height.fdiv 4
  (true, .scrolled "down" (start_y - end_y))

/-- Modelled from the spec: `ExecutorAgent._execute_type` is invoked by
`_execute_plan` for steps whose action is `"type"` but is not defined anywhere
in the class; per the spec the Executor submits the resolved action to the
external driver collaborator and maps the driver's boolean success and optional
error into the step result, so the outcome is driver-determined and is modelled
as the abstract `Driver.type_outcome` response. -/
def execute_type (drv : Driver) (n : Nat) (step : Step) : Bool × Details :=
  drv.type_outcome n step

/-- The action dispatch inside the `_execute_plan` loop.  For `wait` steps the
source sleeps for `float(step['target'].split()[0])` seconds — a blocking
external effect — and then records success unconditionally. -/
def execute_step (drv : Driver) (n : Nat) (step : Step) (observation : Observation) :
    Bool × Details :=
  if step.action == "tap" then execute_tap step.target observation
  else if step.action == "scroll" then execute_scroll step.target observation
  else if step.action == "type" then execute_type drv n step
  else if step.action == "wait" then (true, .waited step.target)
  else (false, .err ("Unknown action: " ++ step.action))

/-- The result dict recorded for one executed step. -/
structure StepResultD where
  step : Step
  success : Bool
  details : Details
  screenshot : Option Nat
  ui_hierarchy : Option UITree

instance : Inhabited StepResultD := ⟨⟨default, false, default, none, none⟩⟩

/-- The result recorded for the `n`-th executed step: observe, dispatch, record. -/
def step_result (drv : Driver) (n : Nat) (step : Step) : StepResultD :=
  let observation := drv.observe n
  let outcome := execute_step drv n step observation
  ⟨step, outcome.1, outcome.2, observation.pixels, observation.ui_tree⟩

/-- The test `not step.get('fallback')`: no fallback key, or a falsy (empty)
one. -/
def Step.no_fallback (step : Step) : Bool := step.fallback.getD "" == ""

/-- `ExecutorAgent._execute_plan` from the `n`-th executed step on: record each
result and break after the first failed step with no fallback. -/
def execute_plan_aux (drv : Driver) : Nat → List Step → List StepResultD
  | _, [] => []
  | n, step :: rest =>
    let result := step_result drv n step
    if !result.success && step.no_fallback then [result]
    else result :: execute_plan_aux drv (n+1) rest

/-- `ExecutorAgent._execute_plan`. -/
def execute_plan (drv : Driver) (plan : List Step) : List StepResultD :=
  execute_plan_aux drv 0 plan

/-- The `n`-th executed step fails and has no fallback: the loop's break
condition at that step. -/
def halts_at (drv : Driver) (n : Nat) (step : Step) : Bool :=
  !(step_result drv n step).success && step.no_fallback

end ExecutorAgent

namespace MultiAgentQA

/-- `ExecutorAgent._get_element_center` of `src/multi_agent_qa/agents/executor_agent.py`:
midpoint of the first four bounds components when at least four are present,
fallback `(400, 400)`; a missing `bounds` key defaults to `[0, 0, 100, 100]`. -/
def get_element_center (element : UITree) : Int × Int :=
  let bounds := element.bounds.getD [0, 0, 100, 100]
  if bounds.length ≥ 4 then
    ((bounds.getD 0 0 + bounds.getD 2 0).fdiv 2, (bounds.getD 1 0 + bounds.getD 3 0).fdiv 2)
  else (400, 400)

end MultiAgentQA

/-! ## Verifier: per-step classification -/

namespace VerifierAgent

open ExecutorAgent in
/-- The verification dict built by `_verify_results` when a step's execution
failed: `FAILED` with `needs_replanning = True`, no judgment-strategy call. -/
def forced_failure (i : Nat) (result : StepResultD) : Verification :=
  { step_num := some i, status := some "FAILED",
    error := some result.details.get_error, needs_replanning := some true }

open ExecutorAgent in
/-- `VerifierAgent._verify_results`: walk `zip(plan, results)` with index `i`;
failed executions are classified by `forced_failure`, successful ones by the
pluggable judgment `judge` (the source's `_verify_step_outcome`, which calls
the external LLM client on `(expected, ui_tree, screenshot)` and falls back to
the built-in heuristic); every entry then gets
`current_state = result['ui_hierarchy']`. -/
def verify_results_aux (judge : String → Option UITree → Option Nat → Verification) :
    Nat → List Step → List StepResultD → List Verification
  | _, [], _ => []
  | _, _ :: _, [] => []
  | i, step :: plan, result :: results =>
    let verification :=
      if !result.success then forced_failure i result
      else { judge step.verification result.ui_hierarchy result.screenshot with
              step_num := some i }
    { verification with current_state := result.ui_hierarchy } ::
      verify_results_aux judge (i+1) plan results

open ExecutorAgent in
/-- `VerifierAgent._verify_results` (index starts at 0). -/
def verify_results (judge : String → Option UITree → Option Nat → Verification)
    (plan : List ExecutorAgent.Step) (results : List StepResultD) : List Verification :=
  verify_results_aux judge 0 plan results

end VerifierAgent

/-! ## Planner -/

namespace PlannerAgent

open ExecutorAgent (Step)

/-- `PlannerAgent._get_default_wifi_test_plan`: the built-in six-step WiFi
template plan. -/
def get_default_wifi_test_plan : List Step :=
  [ { action := "tap", target := "Settings app",
      verification := "Settings main screen visible", fallback := some "Open from app drawer" },
    { action := "scroll", target := "Settings list",
      verification := "Network settings visible", fallback := some "Search for WiFi" },
    { action := "tap", target := "WiFi or Network option",
      verification := "WiFi settings screen open", fallback := some "Try 'Connections' first" },
    { action := "tap", target := "WiFi toggle switch",
      verification := "WiFi is now ON", fallback := some "Check if already on" },
    { action := "wait", target := "2 seconds",
      verification := "WiFi networks appear", fallback := some "Continue anyway" },
    { action := "tap", target := "WiFi toggle switch",
      verification := "WiFi is now OFF", fallback := some "Report as bug if stuck" } ]

/-- `PlannerAgent._create_test_plan` after the external calls: `parsed` is the
outcome of `json.loads(self.llm_client.generate(prompt))` — `some plan` when
the response parses (the parsed value is returned unvalidated), `none` when
`json.loads` raises `JSONDecodeError`, in which case the source falls back to
the default WiFi plan. -/
def create_test_plan (parsed : Option (List Step)) : List Step :=
  match parsed with
  | some plan => plan
  | none => get_default_wifi_test_plan

end PlannerAgent

/-! ## Orchestrator control loop -/

namespace MultiAgentQASystem

/-- The `AgentMessage` dataclass (the `timestamp` field, set from the external
clock `time.time()` and never read by the loop, is omitted). -/
structure AgentMessage (α : Type) where
  sender : String
  recipient : String
  message_type : String
  content : α

/-- The observable outcome of `MultiAgentQASystem.run_test`: how many loop
iterations ran, the content handed to `_handle_final_report` when the terminal
`"System"` recipient was reached (otherwise `none` — the source produces no
report and no status in that case), and the recipient that hit the
`Unknown recipient` break, if any. -/
structure RunOutcome (α : Type) where
  iterations : Nat
  final_report : Option α
  unknown_recipient : Option String

/-- The four agent recipients the loop routes to, in the source's elif order. -/
def agent_names : List String :=
  ["PlannerAgent", "ExecutorAgent", "VerifierAgent", "SupervisorAgent"]

/-- The `while iteration < max_iterations` loop of `run_test`: `process r m`
bundles the four agents' `process` methods, selected by recipient `r` (the
agents, which call the external LLM and driver, are collaborator parameters).
Reaching `"System"` handles the final report and breaks; an unknown recipient
breaks; running out of fuel is the budget-exhaustion exit, which the source
does not distinguish in any output. -/
def run_test_loop {α : Type} (process : String → AgentMessage α → AgentMessage α) :
    Nat → Nat → AgentMessage α → RunOutcome α
  | 0, iteration, _ => ⟨iteration, none, none⟩
  | fuel+1, iteration, current_message =>
    if agent_names.contains current_message.recipient then
      run_test_loop process fuel (iteration+1) (process current_message.recipient current_message)
    else if current_message.recipient == "System" then
      ⟨iteration+1, some current_message.content, none⟩
    else
      ⟨iteration+1, none, some current_message.recipient⟩

/-- The initial message `run_test` builds for the Planner. -/
def initial_message {α : Type} (goal : α) : AgentMessage α :=
  ⟨"System", "PlannerAgent", "create_plan", goal⟩

/-- `MultiAgentQASystem.run_test` with its `max_iterations = 10`. -/
def run_test {α : Type} (process : String → AgentMessage α → AgentMessage α) (goal : α) :
    RunOutcome α :=
  run_test_loop process 10 0 (initial_message goal)

/-- The message in flight after `n` routed hops, for stating which recipients a
routing ever produces. -/
def message_iter {α : Type} (process : String → AgentMessage α → AgentMessage α)
    (m : AgentMessage α) : Nat → AgentMessage α
  | 0 => m
  | n+1 =>
    let prev := message_iter process m n
    process prev.recipient prev

end MultiAgentQASystem

/-! ## Overall status fold (claims C1 and C10) -/

lemma status_fold_eq_ite (ss : List String) :
    VerifierAgent.status_fold ss =
      if "BUG_DETECTED" ∈ ss then "BUG_DETECTED"
      else if "FAILED" ∈ ss then "FAILED"
      else if ∀ s ∈ ss, s = "PASSED" then "PASSED"
      else "PARTIAL_PASS" := by
  by_cases h1 : "BUG_DETECTED" ∈ ss <;> by_cases h2 : "FAILED" ∈ ss <;>
    by_cases h3 : ∀ s ∈ ss, s = "PASSED" <;>
    simp [VerifierAgent.status_fold, h1, h2, h3, List.elem_iff, List.all_eq_true]

lemma status_fold_perm_eq {ss ss2 : List String} (h : ss.Perm ss2) :
    VerifierAgent.status_fold ss = VerifierAgent.status_fold ss2 := by
  by_cases h1 : "BUG_DETECTED" ∈ ss2 <;> by_cases h2 : "FAILED" ∈ ss2 <;>
    by_cases h3 : ∀ s ∈ ss2, s = "PASSED" <;>
    simp [status_fold_eq_ite, h1, h2, h3, h.mem_iff]

lemma status_fold_set_bug (ss : List String) (i : Nat) (hi : i < ss.length) :
    VerifierAgent.status_fold (ss.set i "BUG_DETECTED") = "BUG_DETECTED" := by
  rw [status_fold_eq_ite, if_pos (List.mem_set ss i hi "BUG_DETECTED")]

/-- Claim C1: the overall run status is the deterministic severity fold over the
per-step statuses (any `BUG_DETECTED` wins, else any `FAILED`, else `PASSED`
when all statuses are `PASSED`, else `PARTIAL_PASS`); replacing any entry of an
all-`PASSED` status list with `BUG_DETECTED` flips the fold to `BUG_DETECTED`;
and the fold depends only on the multiset of statuses. -/
theorem c1_overall_status_fold (rs : List VerifierAgent.Verification) :
    ((∃ r ∈ rs, r.status.getD "UNKNOWN" = "BUG_DETECTED") →
      VerifierAgent.determine_overall_status rs = "BUG_DETECTED") ∧
    ((∀ r ∈ rs, r.status.getD "UNKNOWN" ≠ "BUG_DETECTED") →
      (∃ r ∈ rs, r.status.getD "UNKNOWN" = "FAILED") →
      VerifierAgent.determine_overall_status rs = "FAILED") ∧
    ((∀ r ∈ rs, r.status.getD "UNKNOWN" = "PASSED") →
      VerifierAgent.determine_overall_status rs = "PASSED") ∧
    ((∀ r ∈ rs, r.status.getD "UNKNOWN" ≠ "BUG_DETECTED" ∧
        r.status.getD "UNKNOWN" ≠ "FAILED") →
      (∃ r ∈ rs, r.status.getD "UNKNOWN" ≠ "PASSED") →
      VerifierAgent.determine_overall_status rs = "PARTIAL_PASS") ∧
    (∀ ss : List String, (∀ s ∈ ss, s = "PASSED") → ∀ i, i < ss.length →
      VerifierAgent.status_fold (ss.set i "BUG_DETECTED") = "BUG_DETECTED") ∧
    (∀ ss ss2 : List String, ss.Perm ss2 →
      VerifierAgent.status_fold ss = VerifierAgent.status_fold ss2) := by
  refine ⟨?_, ?_, ?_, ?_, fun ss _ i hi => status_fold_set_bug ss i hi,
    fun ss ss2 h => status_fold_perm_eq h⟩
  · rintro ⟨r, hr, hst⟩
    rw [VerifierAgent.determine_overall_status, status_fold_eq_ite,
      if_pos (List.mem_map.2 ⟨r, hr, hst⟩)]
  · intro hno hex
    rw [VerifierAgent.determine_overall_status, status_fold_eq_ite]
    rw [if_neg, if_pos]
    · rcases hex with ⟨r, hr, hst⟩
      exact List.mem_map.2 ⟨r, hr, hst⟩
    · intro hmem
      rcases List.mem_map.1 hmem with ⟨r, hr, hst⟩
      exact hno r hr hst
  · intro hall
    rw [VerifierAgent.determine_overall_status, status_fold_eq_ite]
    rw [if_neg, if_neg, if_pos]
    · intro s hs
      rcases List.mem_map.1 hs with ⟨r, hr, hst⟩
      exact hst ▸ hall r hr
    · intro hmem
      rcases List.mem_map.1 hmem with ⟨r, hr, hst⟩
      have := hall r hr
      rw [this] at hst
      exact absurd hst (by decide)
    · intro hmem
      rcases List.mem_map.1 hmem with ⟨r, hr, hst⟩
      have := hall r hr
      rw [this] at hst
      exact absurd hst (by decide)
  · intro hnone hex
    rw [VerifierAgent.determine_overall_status, status_fold_eq_ite]
    rw [if_neg, if_neg, if_neg]
    · intro hall
      rcases hex with ⟨r, hr, hst⟩
      exact hst (hall _ (List.mem_map.2 ⟨r, hr, rfl⟩))
    · intro hmem
      rcases List.mem_map.1 hmem with ⟨r, hr, hst⟩
      exact (hnone r hr).2 hst
    · intro hmem
      rcases List.mem_map.1 hmem with ⟨r, hr, hst⟩
      exact (hnone r hr).1 hst

/-- Claim C1, witness: a concrete two-result list containing a `BUG_DETECTED`
entry folds to `BUG_DETECTED`. -/
theorem c1_overall_status_fold_witness :
    (∃ r ∈ [({ status := some "PASSED" } : VerifierAgent.Verification),
            ({ status := some "BUG_DETECTED" } : VerifierAgent.Verification)],
        r.status.getD "UNKNOWN" = "BUG_DETECTED") ∧
    VerifierAgent.determine_overall_status
        [({ status := some "PASSED" } : VerifierAgent.Verification),
         ({ status := some "BUG_DETECTED" } : VerifierAgent.Verification)] = "BUG_DETECTED" := by
  have hmem : ({ status := some "BUG_DETECTED" } : VerifierAgent.Verification) ∈
      [({ status := some "PASSED" } : VerifierAgent.Verification),
       ({ status := some "BUG_DETECTED" } : VerifierAgent.Verification)] :=
    List.mem_cons_of_mem _ (List.mem_cons_self _ _)
  exact ⟨⟨_, hmem, rfl⟩, (c1_overall_status_fold _).1 ⟨_, hmem, rfl⟩⟩

/-- Claim C10: with zero verified steps the status fold returns `PASSED` — the
all-`PASSED` branch of `_determine_overall_status` holds vacuously on the empty
list, so a run that verified nothing reports overall success. -/
theorem c10_empty_results_passed :
    VerifierAgent.determine_overall_status [] = "PASSED" := rfl

/-! ## Replanning trigger (claim C4) -/

/-- Claim C4: `_needs_replanning` returns true iff some verification carries
`needs_replanning = true` or has status `FAILED` with confidence strictly above
`0.7`; and a single `FAILED` verification with confidence at or below `0.7`
(and no `needs_replanning` flag) does not trigger replanning. -/
theorem c4_needs_replanning_iff (rs : List VerifierAgent.Verification) :
    (VerifierAgent.needs_replanning rs = true ↔
      ∃ r ∈ rs, r.needs_replanning.getD false = true ∨
        (r.status = some "FAILED" ∧ r.confidence.getD 0 > (0.7 : ℚ))) ∧
    (∀ r : VerifierAgent.Verification, r.needs_replanning.getD false = false →
      r.status = some "FAILED" → r.confidence.getD 0 ≤ (0.7 : ℚ) →
      VerifierAgent.needs_replanning [r] = false) := by
  constructor
  · induction rs with
    | nil => simp [VerifierAgent.needs_replanning]
    | cons r rest ih =>
      by_cases h1 : r.needs_replanning.getD false
      · simp [VerifierAgent.needs_replanning, h1]
      · by_cases h2 : r.status = some "FAILED" ∧ r.confidence.getD 0 > (0.7 : ℚ)
        · simp [VerifierAgent.needs_replanning, h1, h2]
        · simp only [VerifierAgent.needs_replanning, h1, if_neg h2, if_false, ih,
            Bool.false_eq_true]
          constructor
          · intro h
            rcases h with ⟨x, hx, hp⟩
            exact ⟨x, List.mem_cons_of_mem _ hx, hp⟩
          · rintro ⟨x, hx, hp⟩
            rcases List.mem_cons.1 hx with rfl | hx'
            · rcases hp with hp | hp
              · exact absurd hp (by simp [h1])
              · exact absurd hp h2
            · exact ⟨x, hx', hp⟩
  · intro r h1 h2 h3
    simp [VerifierAgent.needs_replanning, h1, h2, h3.not_lt]

/-- Claim C4, witness: a `FAILED` verification with the heuristic's confidence
`0.3` (at or below the `0.7` threshold) does not trigger replanning. -/
theorem c4_needs_replanning_iff_witness :
    ({ status := some "FAILED", confidence := some (0.3 : ℚ) } :
        VerifierAgent.Verification).needs_replanning.getD false = false ∧
    ({ status := some "FAILED", confidence := some (0.3 : ℚ) } :
        VerifierAgent.Verification).confidence.getD 0 ≤ (0.7 : ℚ) ∧
    VerifierAgent.needs_replanning
        [{ status := some "FAILED", confidence := some (0.3 : ℚ) }] = false :=
  ⟨rfl, by norm_num, (c4_needs_replanning_iff []).2 _ rfl rfl (by norm_num)⟩

/-! ## Forced failure classification (claim C5) -/

lemma verify_results_aux_failed
    (judge : String → Option UITree → Option Nat → VerifierAgent.Verification) :
    ∀ (plan : List ExecutorAgent.Step) (results : List ExecutorAgent.StepResultD) (i j : Nat),
      i < plan.length → i < results.length →
      (results.getD i default).success = false →
      (VerifierAgent.verify_results_aux judge j plan results).getD i default =
        { VerifierAgent.forced_failure (j+i) (results.getD i default) with
          current_state := (results.getD i default).ui_hierarchy }
  | [], _, i, _, hp, _, _ => absurd hp (by simp)
  | _ :: _, [], i, _, _, hr, _ => absurd hr (by simp)
  | s :: plan, r :: results, 0, j, hp, hr, hf => by
    simp only [List.getD_cons_zero] at hf ⊢
    simp [VerifierAgent.verify_results_aux, hf]
  | s :: plan, r :: results, i+1, j, hp, hr, hf => by
    simp only [List.getD_cons_succ] at hf ⊢
    have ih := verify_results_aux_failed judge plan results i (j+1)
      (by simpa using Nat.lt_of_succ_lt_succ (by simpa using hp))
      (by simpa using Nat.lt_of_succ_lt_succ (by simpa using hr)) hf
    have harith : j + 1 + i = j + (i + 1) := by omega
    rw [VerifierAgent.verify_results_aux]
    simpa [harith] using ih

/-- Claim C5: a step result with `success = false` is classified `FAILED` with
`needs_replanning = true` unconditionally, and the classification at that index
is independent of the pluggable judgment strategy (which `_verify_results`
consults only for successful steps). -/
theorem c5_failed_step_forced
    (judge judge2 : String → Option UITree → Option Nat → VerifierAgent.Verification)
    (plan : List ExecutorAgent.Step) (results : List ExecutorAgent.StepResultD) (i : Nat)
    (hp : i < plan.length) (hr : i < results.length)
    (hfail : (results.getD i default).success = false) :
    ((VerifierAgent.verify_results judge plan results).getD i default).status = some "FAILED" ∧
    ((VerifierAgent.verify_results judge plan results).getD i default).needs_replanning =
      some true ∧
    (VerifierAgent.verify_results judge plan results).getD i default =
      (VerifierAgent.verify_results judge2 plan results).getD i default := by
  have h1 := verify_results_aux_failed judge plan results i 0 hp hr hfail
  have h2 := verify_results_aux_failed judge2 plan results i 0 hp hr hfail
  simp only [VerifierAgent.verify_results]
  rw [h1, h2]
  exact ⟨rfl, rfl, rfl⟩

/-- Claim C5, witness: a concrete one-step plan whose execution failed is
classified `FAILED` with `needs_replanning = true`, identically under two
different judgment strategies. -/
theorem c5_failed_step_forced_witness :
    (0 : Nat) < ([({ action := "tap", target := "WiFi" } : ExecutorAgent.Step)]).length ∧
    (([(⟨default, false, .err "boom", none, none⟩ : ExecutorAgent.StepResultD)]).getD 0
        default).success = false ∧
    ((VerifierAgent.verify_results (fun _ _ _ => { status := some "PASSED" })
        [({ action := "tap", target := "WiFi" } : ExecutorAgent.Step)]
        [⟨default, false, .err "boom", none, none⟩]).getD 0 default).status = some "FAILED" :=
  ⟨by decide, rfl,
    (c5_failed_step_forced (fun _ _ _ => { status := some "PASSED" })
      (fun _ _ _ => { status := some "BUG_DETECTED" })
      [{ action := "tap", target := "WiFi" }]
      [⟨default, false, .err "boom", none, none⟩] 0 (by decide) (by decide) rfl).1⟩

/-! ## Executor short-circuit (claim C3) -/

lemma execute_plan_aux_halts (drv : ExecutorAgent.Driver) :
    ∀ (plan : List ExecutorAgent.Step) (n k : Nat), k < plan.length →
      ExecutorAgent.halts_at drv (n+k) (plan.getD k default) = true →
      (∀ j, j < k → ExecutorAgent.halts_at drv (n+j) (plan.getD j default) = false) →
      ExecutorAgent.execute_plan_aux drv n plan =
        (List.range (k+1)).map
          (fun j => ExecutorAgent.step_result drv (n+j) (plan.getD j default))
  | [], n, k, hk, _, _ => absurd hk (by simp)
  | s :: rest, n, 0, _, hhalt, _ => by
    simp only [List.getD_cons_zero, Nat.add_zero] at hhalt
    simp only [ExecutorAgent.halts_at] at hhalt
    simp only [ExecutorAgent.execute_plan_aux]
    simp [hhalt, List.range_succ]
  | s :: rest, n, k+1, hk, hhalt, hbefore => by
    have h0 : (!(ExecutorAgent.step_result drv n s).success && s.no_fallback) = false := by
      have := hbefore 0 (Nat.succ_pos k)
      simpa [ExecutorAgent.halts_at] using this
    have ih := execute_plan_aux_halts drv rest (n+1) k
      (by simpa using Nat.lt_of_succ_lt_succ (by simpa using hk))
      (by
        have := hhalt
        simp only [List.getD_cons_succ] at this
        have harith : n + (k + 1) = n + 1 + k := by omega
        rwa [harith] at this)
      (by
        intro j hj
        have := hbefore (j+1) (Nat.succ_lt_succ hj)
        simp only [List.getD_cons_succ] at this
        have harith : n + (j + 1) = n + 1 + j := by omega
        rwa [harith] at this)
    simp only [ExecutorAgent.execute_plan_aux, h0, Bool.false_eq_true, if_false]
    rw [List.range_succ_eq_map, List.map_cons, List.map_map, ih]
    refine congrArg₂ _ (by simp) ?_
    refine List.map_congr_left fun j _ => ?_
    simp only [Function.comp, List.getD_cons_succ]
    have harith : n + 1 + j = n + (j + 1) := by omega
    rw [harith]

/-- Claim C3: plan execution halts at the first step that fails with no declared
fallback — the returned result list is exactly the per-step results of steps
`0..k` where `k` is that step's index, so it has length `k+1` and contains no
result for any later step. -/
theorem c3_executor_short_circuit (drv : ExecutorAgent.Driver)
    (plan : List ExecutorAgent.Step) (k : Nat) (h1 : k < plan.length)
    (h2 : ExecutorAgent.halts_at drv k (plan.getD k default) = true)
    (h3 : ∀ j, j < k → ExecutorAgent.halts_at drv j (plan.getD j default) = false) :
    ExecutorAgent.execute_plan drv plan =
      (List.range (k+1)).map (fun j => ExecutorAgent.step_result drv j (plan.getD j default)) ∧
    (ExecutorAgent.execute_plan drv plan).length = k + 1 := by
  have h := execute_plan_aux_halts drv plan 0 k h1 (by simpa using h2)
    (by intro j hj; simpa using h3 j hj)
  have h' : ExecutorAgent.execute_plan drv plan =
      (List.range (k+1)).map
        (fun j => ExecutorAgent.step_result drv j (plan.getD j default)) := by
    rw [ExecutorAgent.execute_plan, h]
    simp
  exact ⟨h', by rw [h']; simp⟩

/-- A fixed observation for the executor witness: one screen whose UI tree holds
a single tappable `Settings` node with 4-component bounds. -/
def obs_w : ExecutorAgent.Observation :=
  { ui_tree := some (.node "Settings" "" "" "" (some [0, 0, 100, 100]) true false []) }

/-- A driver returning `obs_w` on every observe call. -/
def drv_w : ExecutorAgent.Driver := ⟨fun _ => obs_w, fun _ step => (true, .driver step.text)⟩

/-- A four-step plan whose second step taps an element that is absent from
`obs_w` and declares no fallback. -/
def plan_w : List ExecutorAgent.Step :=
  [ { action := "tap", target := "Settings", verification := "Settings main screen visible",
      fallback := some "Open from app drawer" },
    { action := "tap", target := "Bluetooth menu", verification := "Bluetooth screen open" },
    { action := "wait", target := "2 seconds", verification := "WiFi networks appear" },
    { action := "tap", target := "Settings", verification := "Settings main screen visible" } ]

/-- Claim C3, witness: for the four-step `plan_w` whose step 2 fails with no
fallback, `_execute_plan` returns exactly 2 step results. -/
theorem c3_executor_short_circuit_witness :
    (1 : Nat) < plan_w.length ∧
    ExecutorAgent.halts_at drv_w 1 (plan_w.getD 1 default) = true ∧
    (∀ j, j < 1 → ExecutorAgent.halts_at drv_w j (plan_w.getD j default) = false) ∧
    (ExecutorAgent.execute_plan drv_w plan_w).length = 2 :=
  ⟨by decide, by decide, by decide,
    (c3_executor_short_circuit drv_w plan_w 1 (by decide) (by decide) (by decide)).2⟩

/-! ## Tap midpoint (claim C8) -/

/-- Claim C8: for a matched element whose bounds are a 4-tuple
`(left, top, right, bottom)` with `left < right` and `top < bottom`, the tap
coordinate derived by `_execute_tap` is the floor-division midpoint
`((left+right) // 2, (top+bottom) // 2)`, and `_get_element_center` of the
second executor computes the same midpoint. -/
theorem c8_tap_midpoint (target : String) (observation : ExecutorAgent.Observation)
    (element : UITree) (l t r b : Int)
    (hfind : ExecutorAgent.find_ui_element target
      (observation.ui_tree.getD UITree.emptyDict) = some element)
    (hbounds : element.bounds = some [l, t, r, b]) (_hlr : l < r) (_htb : t < b) :
    ExecutorAgent.execute_tap target observation =
      (true, .tapped ((l + r).fdiv 2, (t + b).fdiv 2) element.text) ∧
    MultiAgentQA.get_element_center element = ((l + r).fdiv 2, (t + b).fdiv 2) := by
  constructor
  · simp only [ExecutorAgent.execute_tap, hfind]
    simp [hbounds]
  · simp [MultiAgentQA.get_element_center, hbounds]

/-- Claim C8, witness: tapping the `Settings` element of `obs_w`, whose bounds
are `[0, 0, 100, 100]`, taps at the midpoint `(50, 50)`. -/
theorem c8_tap_midpoint_witness :
    ExecutorAgent.find_ui_element "Settings" (obs_w.ui_tree.getD UITree.emptyDict) =
      some (UITree.node "Settings" "" "" "" (some [0, 0, 100, 100]) true false []) ∧
    (0 : Int) < 100 ∧
    ExecutorAgent.execute_tap "Settings" obs_w =
      (true, .tapped (((0 : Int) + 100).fdiv 2, ((0 : Int) + 100).fdiv 2) "Settings") :=
  ⟨rfl, by decide,
    (c8_tap_midpoint "Settings" obs_w
      (UITree.node "Settings" "" "" "" (some [0, 0, 100, 100]) true false [])
      0 0 100 100 rfl rfl (by decide) (by decide)).1⟩

/-! ## Heuristic verification (claim C6) -/

/-- Claim C6 (amended): the built-in heuristic always classifies `PASSED` or
`FAILED` (among the four statuses); every `FAILED` classification carries
confidence exactly `0.3` while `PASSED` classifications carry no confidence
field at all; and any expectation matching neither the `"visible"`/`"open"`
presence family nor the `"on"`/`"off"` toggle family is classified `FAILED`
with confidence `0.3` — never `PASSED`. -/
theorem c6_heuristic_verifier (expected : String) (ui_tree : UITree) :
    (((VerifierAgent.heuristic_verification expected ui_tree).status = some "PASSED" ∧
      (VerifierAgent.heuristic_verification expected ui_tree).confidence = none) ∨
     ((VerifierAgent.heuristic_verification expected ui_tree).status = some "FAILED" ∧
      (VerifierAgent.heuristic_verification expected ui_tree).confidence = some (0.3 : ℚ))) ∧
    (pyIn "visible" (pyLower expected) = false → pyIn "open" (pyLower expected) = false →
     pyIn "on" (pyLower expected) = false → pyIn "off" (pyLower expected) = false →
     VerifierAgent.heuristic_verification expected ui_tree = VerifierAgent.could_not_verify ∧
     (VerifierAgent.heuristic_verification expected ui_tree).status ≠ some "PASSED") := by
  constructor
  · simp only [VerifierAgent.heuristic_verification]
    split_ifs <;> simp [VerifierAgent.could_not_verify]
  · intro h1 h2 h3 h4
    have heq : VerifierAgent.heuristic_verification expected ui_tree =
        VerifierAgent.could_not_verify := by
      simp only [VerifierAgent.heuristic_verification]
      simp [h1, h2, h3, h4]
    rw [heq]
    exact ⟨rfl, by simp [VerifierAgent.could_not_verify]⟩

/-- Claim C6, witness: the expectation `"wifi is up"` matches neither pattern
family and is classified by the conservative `FAILED`/`0.3` default. -/
theorem c6_heuristic_verifier_witness :
    pyIn "visible" (pyLower "wifi is up") = false ∧
    pyIn "open" (pyLower "wifi is up") = false ∧
    pyIn "on" (pyLower "wifi is up") = false ∧
    pyIn "off" (pyLower "wifi is up") = false ∧
    VerifierAgent.heuristic_verification "wifi is up" UITree.emptyDict =
      VerifierAgent.could_not_verify :=
  ⟨by decide, by decide, by decide, by decide,
    ((c6_heuristic_verifier "wifi is up" UITree.emptyDict).2 (by decide) (by decide)
      (by decide) (by decide)).1⟩

/-- A one-node UI tree whose text is `Settings`. -/
def settings_tree : UITree := .node "Settings" "" "" "" none false false []

/-- Claim C6, counterexample: on expectation `"settings visible"` against a
screen showing `Settings`, the heuristic classifies `PASSED` but returns no
confidence value at all — refuting that the heuristic always returns a status
together with a confidence in `[0,1]`. -/
theorem c6_heuristic_verifier_counterexample :
    (VerifierAgent.heuristic_verification "settings visible" settings_tree).status =
      some "PASSED" ∧
    (VerifierAgent.heuristic_verification "settings visible" settings_tree).confidence =
      none :=
  ⟨rfl, rfl⟩

/-! ## Planner fallback (claim C7) -/

/-- Claim C7 (amended): when the judgment strategy's response fails to parse,
`_create_test_plan` returns the built-in default WiFi template plan, which has
at least one step (six), each with a non-empty target and a non-empty expected
outcome, and producing that fallback never fails; a response that parses is
returned as-is, without validation. -/
theorem c7_create_plan_fallback :
    PlannerAgent.create_test_plan none = PlannerAgent.get_default_wifi_test_plan ∧
    0 < PlannerAgent.get_default_wifi_test_plan.length ∧
    (∀ step ∈ PlannerAgent.get_default_wifi_test_plan,
      step.target ≠ "" ∧ step.verification ≠ "") ∧
    (∀ parsed_plan : List ExecutorAgent.Step,
      PlannerAgent.create_test_plan (some parsed_plan) = parsed_plan) :=
  ⟨rfl, by decide, by decide, fun _ => rfl⟩

/-- Claim C7, witness: the first template step is in the template plan and has a
non-empty target. -/
theorem c7_create_plan_fallback_witness :
    ({ action := "tap", target := "Settings app", verification := "Settings main screen visible",
       fallback := some "Open from app drawer" } : ExecutorAgent.Step) ∈
      PlannerAgent.get_default_wifi_test_plan ∧
    ({ action := "tap", target := "Settings app", verification := "Settings main screen visible",
       fallback := some "Open from app drawer" } : ExecutorAgent.Step).target ≠ "" :=
  ⟨by decide, (c7_create_plan_fallback.2.2.1 _ (by decide)).1⟩

/-- Claim C7, counterexample: the strategy response `"[]"` parses as valid JSON,
so `_create_test_plan` returns it unvalidated — a plan with zero steps, refuting
that `createPlan` always returns at least one step. -/
theorem c7_create_plan_fallback_counterexample :
    PlannerAgent.create_test_plan (some []) = [] ∧
    ¬ (0 < (PlannerAgent.create_test_plan (some [])).length) :=
  ⟨rfl, by decide⟩

/-! ## Flattening the UI tree (claim C9) -/

mutual

theorem traverse_eq_spec :
    ∀ (d : Nat) (t : UITree), AndroidHelper.depth_bounded 10 d t = true →
      AndroidHelper.traverse 10 d t =
        ((AndroidHelper.spec_preorder d t).filter
          (fun p => AndroidHelper.has_signal p.2)).map
          (fun p => AndroidHelper.to_element p.1 p.2)
  | d, .node a b c e f g h cs, hb => by
    simp only [AndroidHelper.depth_bounded, Bool.and_eq_true, decide_eq_true_eq] at hb
    obtain ⟨hd, hcs⟩ := hb
    have ih := traverse_list_eq_spec (d+1) cs hcs
    simp only [AndroidHelper.traverse, AndroidHelper.spec_preorder]
    rw [if_neg (by omega), List.filter_cons]
    by_cases hsig : AndroidHelper.has_signal (.node a b c e f g h cs) = true
    · simp [hsig, ih]
    · simp [hsig, ih]

theorem traverse_list_eq_spec :
    ∀ (d : Nat) (l : List UITree), AndroidHelper.depth_bounded_list 10 d l = true →
      AndroidHelper.traverse_list 10 d l =
        ((AndroidHelper.spec_preorder_list d l).filter
          (fun p => AndroidHelper.has_signal p.2)).map
          (fun p => AndroidHelper.to_element p.1 p.2)
  | _, [], _ => rfl
  | d, c :: cs, hb => by
    simp only [AndroidHelper.depth_bounded_list, Bool.and_eq_true] at hb
    obtain ⟨hc, hcs⟩ := hb
    simp only [AndroidHelper.traverse_list, AndroidHelper.spec_preorder_list,
      List.filter_append, List.map_append]
    rw [traverse_eq_spec d c hc, traverse_list_eq_spec d cs hcs]

end

/-- Claim C9 (amended): for every UI tree all of whose nodes sit at depth at
most the default `max_depth = 10`, `parse_ui_tree` produces exactly the
depth-first pre-order sequence of the tree's elements, excluding exactly those
with text, content-description and resource-id all empty. -/
theorem c9_flatten_preorder (t : UITree)
    (h : AndroidHelper.depth_bounded 10 0 t = true) :
    AndroidHelper.parse_ui_tree t = AndroidHelper.spec_flatten t :=
  traverse_eq_spec 0 t h

/-- A three-level tree: a `Settings` root, an unnamed layout child (no
identifying signal), and a `WiFi` grandchild. -/
def small_tree : UITree :=
  .node "Settings" "" "" "" none false false
    [.node "" "" "" "layout" none false false
      [.node "WiFi" "" "" "" none true false []]]

/-- Claim C9, witness: the three-level `small_tree` is within the depth bound
and flattens to its pre-order signal-bearing elements. -/
theorem c9_flatten_preorder_witness :
    AndroidHelper.depth_bounded 10 0 small_tree = true ∧
    AndroidHelper.parse_ui_tree small_tree = AndroidHelper.spec_flatten small_tree :=
  ⟨by decide, c9_flatten_preorder small_tree (by decide)⟩

set_option maxRecDepth 8000 in
/-- Claim C9, counterexample: on a 12-node chain whose every node carries text,
`parse_ui_tree` keeps only the 11 nodes at depth `0..10` — the signal-bearing
node at depth 11 is silently dropped by the `max_depth` guard, refuting the
claim for arbitrary trees. -/
theorem c9_flatten_preorder_counterexample :
    (AndroidHelper.parse_ui_tree (AndroidHelper.deep_chain 11)).length = 11 ∧
    (AndroidHelper.spec_flatten (AndroidHelper.deep_chain 11)).length = 12 ∧
    AndroidHelper.parse_ui_tree (AndroidHelper.deep_chain 11) ≠
      AndroidHelper.spec_flatten (AndroidHelper.deep_chain 11) := by
  have h1 : (AndroidHelper.parse_ui_tree (AndroidHelper.deep_chain 11)).length = 11 := by
    decide
  have h2 : (AndroidHelper.spec_flatten (AndroidHelper.deep_chain 11)).length = 12 := by
    decide
  refine ⟨h1, h2, fun h => ?_⟩
  rw [h, h2] at h1
  exact absurd h1 (by decide)

/-! ## Orchestrator budget (claim C2) -/

lemma run_test_loop_iterations_le {α : Type}
    (process : String → MultiAgentQASystem.AgentMessage α → MultiAgentQASystem.AgentMessage α) :
    ∀ (fuel iteration : Nat) (m : MultiAgentQASystem.AgentMessage α),
      (MultiAgentQASystem.run_test_loop process fuel iteration m).iterations ≤ iteration + fuel
  | 0, iteration, m => by simp [MultiAgentQASystem.run_test_loop]
  | fuel+1, iteration, m => by
    simp only [MultiAgentQASystem.run_test_loop]
    split_ifs with h1 h2
    · have := run_test_loop_iterations_le process fuel (iteration+1) (process m.recipient m)
      omega
    · simp only []
      omega
    · simp only []
      omega

lemma message_iter_shift {α : Type}
    (process : String → MultiAgentQASystem.AgentMessage α → MultiAgentQASystem.AgentMessage α)
    (m : MultiAgentQASystem.AgentMessage α) :
    ∀ n, MultiAgentQASystem.message_iter process (process m.recipient m) n =
      MultiAgentQASystem.message_iter process m (n+1)
  | 0 => rfl
  | n+1 => by
    have ih := message_iter_shift process m n
    simp only [MultiAgentQASystem.message_iter, ih]

lemma run_test_loop_exhausts {α : Type}
    (process : String → MultiAgentQASystem.AgentMessage α → MultiAgentQASystem.AgentMessage α) :
    ∀ (fuel iteration : Nat) (m : MultiAgentQASystem.AgentMessage α),
      (∀ n, n < fuel → (MultiAgentQASystem.message_iter process m n).recipient ∈
        MultiAgentQASystem.agent_names) →
      MultiAgentQASystem.run_test_loop process fuel iteration m = ⟨iteration + fuel, none, none⟩
  | 0, iteration, m, _ => by simp [MultiAgentQASystem.run_test_loop]
  | fuel+1, iteration, m, h => by
    have h0 : m.recipient ∈ MultiAgentQASystem.agent_names := by
      simpa [MultiAgentQASystem.message_iter] using h 0 (Nat.succ_pos fuel)
    have harg : ∀ n, n < fuel →
        (MultiAgentQASystem.message_iter process (process m.recipient m) n).recipient ∈
          MultiAgentQASystem.agent_names := by
      intro n hn
      rw [message_iter_shift process m n]
      exact h (n+1) (Nat.succ_lt_succ hn)
    simp only [MultiAgentQASystem.run_test_loop]
    rw [if_pos (List.elem_iff.2 h0),
      run_test_loop_exhausts process fuel (iteration+1) (process m.recipient m) harg]
    have harith : iteration + 1 + fuel = iteration + (fuel + 1) := by omega
    rw [harith]

/-- Claim C2 (amended): the `run_test` loop performs at most 10 iterations; and
whenever the routing never produces a message for the terminal `"System"`
recipient (nor an unknown recipient) within the budget, the loop stops after
exactly 10 iterations with no final report and no unknown-recipient break — the
source surfaces no distinct BudgetExhausted/inconclusive status, it merely exits
the loop, but it also does not hand the run to the final-report path. -/
theorem c2_orchestrator_budget {α : Type}
    (process : String → MultiAgentQASystem.AgentMessage α → MultiAgentQASystem.AgentMessage α)
    (goal : α) :
    (MultiAgentQASystem.run_test process goal).iterations ≤ 10 ∧
    ((∀ n, n < 10 →
        (MultiAgentQASystem.message_iter process
          (MultiAgentQASystem.initial_message goal) n).recipient ∈
          MultiAgentQASystem.agent_names) →
      MultiAgentQASystem.run_test process goal = ⟨10, none, none⟩) := by
  constructor
  · simpa [MultiAgentQASystem.run_test] using
      run_test_loop_iterations_le process 10 0 (MultiAgentQASystem.initial_message goal)
  · intro h
    simpa [MultiAgentQASystem.run_test] using
      run_test_loop_exhausts process 10 0 (MultiAgentQASystem.initial_message goal) h

/-- A routing in which the Planner, Executor and Verifier cycle forever
(Verifier → Planner → Executor → Verifier) and no message is ever addressed to
`"System"`. -/
def cyc_process :
    String → MultiAgentQASystem.AgentMessage Unit → MultiAgentQASystem.AgentMessage Unit :=
  fun r m =>
    if r == "VerifierAgent" then
      { m with sender := r, recipient := "PlannerAgent", message_type := "replan_needed" }
    else if r == "PlannerAgent" then
      { m with sender := r, recipient := "ExecutorAgent", message_type := "execute_plan" }
    else
      { m with sender := r, recipient := "VerifierAgent", message_type := "verify_execution" }

/-- Claim C2, witness: under the cyclic routing the loop halts after exactly the
10-iteration budget with no report. -/
theorem c2_orchestrator_budget_witness :
    (∀ n, n < 10 →
      (MultiAgentQASystem.message_iter cyc_process
        (MultiAgentQASystem.initial_message ()) n).recipient ∈
        MultiAgentQASystem.agent_names) ∧
    MultiAgentQASystem.run_test cyc_process () = ⟨10, none, none⟩ :=
  ⟨by decide, (c2_orchestrator_budget cyc_process ()).2 (by decide)⟩

/-- Claim C2, counterexample: when the budget is exhausted by the cyclic
routing, the run produces no final report and no unknown-recipient marker —
no artifact distinguishing budget exhaustion is surfaced anywhere, refuting
that exhaustion is surfaced as a distinct `BudgetExhausted`/inconclusive
termination status. -/
theorem c2_orchestrator_budget_counterexample :
    (MultiAgentQASystem.run_test cyc_process ()).iterations = 10 ∧
    (MultiAgentQASystem.run_test cyc_process ()).final_report = none ∧
    (MultiAgentQASystem.run_test cyc_process ()).unknown_recipient = none :=
  ⟨rfl, rfl, rfl⟩
